import Mathlib

/-!
Verification of the bmxx80 BME680/BME688 driver core (Go package `bmxx80`,
file containing `sense68x`, `isIdle68x`, `newCalibration68x`,
`compensateTempInt`, `compensatePressureFloat`, `compensateHumidityInt`).

Modelling conventions:
* Machine integers are modelled as unbounded `Int`/`Nat` with explicit
  two's-complement wrapping (`i32`, `i64`, ...) inserted at every operation
  whose Go counterpart is performed at a fixed width and may wrap.
* Go's arithmetic right shift `x >> k` on a signed integer is floor division
  by `2^k`; since the divisor is positive this coincides with Lean's
  Euclidean `/` on `Int`, which we use (with the divisor written as a
  numeral, e.g. `x / 8` for `x >> 3`).
* Go's left shift `x << k` (no overflow at the use sites before wrapping is
  applied) is written `x * 2^k` as a numeral, with the wrap applied outside.
* Go's integer division truncates towards zero: modelled by `Int.tdiv`.
* Byte slices (`[]byte`) are modelled as `List Nat`; indexing `b[i]` is the
  fallible `List.get?` (a Go out-of-range index panics, modelled by the
  `Option` monad returning `none`).
* `float64` arithmetic (pressure compensation only) is modelled by exact
  rational arithmetic; the claims proved about it concern only the
  zero-denominator branch structure, which is independent of rounding.
* The register bus is modelled by a register file `regs : Nat → Nat`
  (values reduced mod 256, since the bus delivers bytes) together with an
  optional bus error; `readReg` either fails with that error or returns the
  requested bytes, as the Go `readReg` helper does.
-/

namespace Bmxx80

/-- Two's-complement reinterpretation of an integer as a signed 8-bit value. -/
def i8 (x : Int) : Int := (x + 128) % 256 - 128

/-- Two's-complement reinterpretation of an integer as a signed 16-bit value. -/
def i16 (x : Int) : Int := (x + 32768) % 65536 - 32768

/-- Two's-complement reinterpretation of an integer as a signed 32-bit value. -/
def i32 (x : Int) : Int := (x + 2147483648) % 4294967296 - 2147483648

/-- Two's-complement reinterpretation of an integer as a signed 64-bit value. -/
def i64 (x : Int) : Int :=
  (x + 9223372036854775808) % 18446744073709551616 - 9223372036854775808

/-- Reinterpretation of an integer as an unsigned 32-bit value. -/
def u32 (x : Int) : Int := x % 4294967296

theorem i32_id (x : Int) (h1 : -2147483648 ≤ x) (h2 : x < 2147483648) :
    i32 x = x := by
  unfold i32; omega

theorem i64_id (x : Int) (h1 : -9223372036854775808 ≤ x)
    (h2 : x < 9223372036854775808) : i64 x = x := by
  unfold i64; omega

/-- Wrapping is a congruence: a wrapped summand may be unwrapped under an
enclosing wrap. -/
theorem i32_add_left (x y : Int) : i32 (i32 x + y) = i32 (x + y) := by
  unfold i32; omega

/-- Bound on a product from bounds on the absolute values of the factors. -/
theorem mul_bounds {a b A B : Int} (ha : |a| ≤ A) (hb : |b| ≤ B) :
    -(A * B) ≤ a * b ∧ a * b ≤ A * B := by
  have h : |a * b| ≤ A * B := by
    rw [abs_mul]
    exact mul_le_mul ha hb (abs_nonneg b) ((abs_nonneg a).trans ha)
  exact abs_le.mp h

/-- Truncation of a rational towards zero, as Go's `int32(f)` conversion of a
float does (for in-range values). -/
def truncQ (q : ℚ) : Int := Int.tdiv q.num q.den

/-! ## Calibration data (struct `calibration68x` and `newCalibration68x`) -/

/-- The decoded calibration coefficients (Go struct `calibration68x`).
Unsigned fields are `Nat`, signed fields carry the signed value as `Int`. -/
structure calibration68x where
  t1 : Nat
  t2 : Int
  t3 : Int
  p1 : Nat
  p2 : Int
  p4 : Int
  p5 : Int
  p8 : Int
  p9 : Int
  p3 : Int
  p6 : Int
  p7 : Int
  p10 : Nat
  h1 : Nat
  h2 : Nat
  h3 : Int
  h4 : Int
  h5 : Int
  h7 : Int
  h6 : Nat
  deriving DecidableEq

/-- The ranges the Go field types (`uint16`, `int16`, `int8`, `uint8`) impose
on the coefficient values. -/
def calibration68x.Wf (c : calibration68x) : Prop :=
  c.t1 < 65536 ∧ -32768 ≤ c.t2 ∧ c.t2 < 32768 ∧ -128 ≤ c.t3 ∧ c.t3 < 128 ∧
  c.p1 < 65536 ∧ -32768 ≤ c.p2 ∧ c.p2 < 32768 ∧ -32768 ≤ c.p4 ∧ c.p4 < 32768 ∧
  -32768 ≤ c.p5 ∧ c.p5 < 32768 ∧ -32768 ≤ c.p8 ∧ c.p8 < 32768 ∧
  -32768 ≤ c.p9 ∧ c.p9 < 32768 ∧ -128 ≤ c.p3 ∧ c.p3 < 128 ∧
  -128 ≤ c.p6 ∧ c.p6 < 128 ∧ -128 ≤ c.p7 ∧ c.p7 < 128 ∧ c.p10 < 256 ∧
  c.h1 < 4096 ∧ c.h2 < 4096 ∧ -128 ≤ c.h3 ∧ c.h3 < 128 ∧
  -128 ≤ c.h4 ∧ c.h4 < 128 ∧ -128 ≤ c.h5 ∧ c.h5 < 128 ∧
  -128 ≤ c.h7 ∧ c.h7 < 128 ∧ c.h6 < 256

instance (c : calibration68x) : Decidable c.Wf := by
  unfold calibration68x.Wf; infer_instance

/-- Go `newCalibration68x(tph, h []byte)`.  Each byte access `b[i]` is the
fallible `List.get?` (Go panics on an out-of-range index; there is no size
check in the source), written as a nested `match`; the accesses appear in
source order (`c.t1` first, reading `h[31-23]` and `h[32-23]`).  Since the
inputs are bytes (`< 256`), the `uint16` combinations `lo ||| hi <<< 8`
cannot exceed 16 bits and are written without a wrap; signed fields
reinterpret the combined bit pattern via `i16`/`i8`. -/
def newCalibration68x (tph h : List Nat) : Option calibration68x :=
  -- c.t1 = uint16(h[31-23]) | uint16(h[32-23])<<8
  match h.get? 8 with
  | none => none
  | some x8 =>
  match h.get? 9 with
  | none => none
  | some x9 =>
  -- c.t2 = int16(tph[0]) | int16(tph[1])<<8
  match tph.get? 0 with
  | none => none
  | some a0 =>
  match tph.get? 1 with
  | none => none
  | some a1 =>
  -- c.t3 = int8(tph[2])
  match tph.get? 2 with
  | none => none
  | some a2 =>
  -- c.p1 = uint16(tph[4]) | uint16(tph[5])<<8
  match tph.get? 4 with
  | none => none
  | some a4 =>
  match tph.get? 5 with
  | none => none
  | some a5 =>
  -- c.p2 = int16(tph[6]) | int16(tph[7])<<8
  match tph.get? 6 with
  | none => none
  | some a6 =>
  match tph.get? 7 with
  | none => none
  | some a7 =>
  -- c.p3 = int8(tph[8])
  match tph.get? 8 with
  | none => none
  | some a8 =>
  -- c.p4 = int16(tph[10]) | int16(tph[11])<<8
  match tph.get? 10 with
  | none => none
  | some a10 =>
  match tph.get? 11 with
  | none => none
  | some a11 =>
  -- c.p5 = int16(tph[12]) | int16(tph[13])<<8
  match tph.get? 12 with
  | none => none
  | some a12 =>
  match tph.get? 13 with
  | none => none
  | some a13 =>
  -- c.p6 = int8(tph[15])
  match tph.get? 15 with
  | none => none
  | some a15 =>
  -- c.p7 = int8(tph[14])
  match tph.get? 14 with
  | none => none
  | some a14 =>
  -- c.p8 = int16(tph[18]) | int16(tph[19])<<8
  match tph.get? 18 with
  | none => none
  | some a18 =>
  match tph.get? 19 with
  | none => none
  | some a19 =>
  -- c.p9 = int16(tph[20]) | int16(tph[21])<<8
  match tph.get? 20 with
  | none => none
  | some a20 =>
  match tph.get? 21 with
  | none => none
  | some a21 =>
  -- c.p10 = tph[22]
  match tph.get? 22 with
  | none => none
  | some a22 =>
  -- c.h1 = uint16(h[24-23])&0xF | uint16(h[25-23])<<4
  match h.get? 1 with
  | none => none
  | some x1 =>
  match h.get? 2 with
  | none => none
  | some x2 =>
  -- c.h2 = uint16(h[24-23])>>4 | uint16(h[23-23])<<4
  match h.get? 0 with
  | none => none
  | some x0 =>
  -- c.h3 .. c.h7 = h[26-23] .. h[30-23]
  match h.get? 3 with
  | none => none
  | some x3 =>
  match h.get? 4 with
  | none => none
  | some x4 =>
  match h.get? 5 with
  | none => none
  | some x5 =>
  match h.get? 6 with
  | none => none
  | some x6 =>
  match h.get? 7 with
  | none => none
  | some x7 =>
  some {
    t1 := x8 ||| x9 <<< 8,
    t2 := i16 ((a0 ||| a1 <<< 8 : Nat) : Int),
    t3 := i8 (a2 : Int),
    p1 := a4 ||| a5 <<< 8,
    p2 := i16 ((a6 ||| a7 <<< 8 : Nat) : Int),
    p3 := i8 (a8 : Int),
    p4 := i16 ((a10 ||| a11 <<< 8 : Nat) : Int),
    p5 := i16 ((a12 ||| a13 <<< 8 : Nat) : Int),
    p6 := i8 (a15 : Int),
    p7 := i8 (a14 : Int),
    p8 := i16 ((a18 ||| a19 <<< 8 : Nat) : Int),
    p9 := i16 ((a20 ||| a21 <<< 8 : Nat) : Int),
    p10 := a22,
    h1 := x1 &&& 15 ||| x2 <<< 4,
    h2 := x1 >>> 4 ||| x0 <<< 4,
    h3 := i8 (x3 : Int),
    h4 := i8 (x4 : Int),
    h5 := i8 (x5 : Int),
    h6 := x6,
    h7 := i8 (x7 : Int) }

/-! ## Temperature compensation (`compensateTempInt`) -/

/-- The final scaling step of `compensateTempInt`:
`int32((tFine*5 + 128) >> 8)`, with `int64` wraps on the arithmetic and the
final truncation to `int32`. -/
def centiFromTFine (tFine : Int) : Int :=
  i32 (i64 (i64 (tFine * 5) + 128) / 256)

/-- Go `(c *calibration68x) compensateTempInt(raw int32) (int32, int32)`.
All intermediates are `int64` (wrapped by `i64`); the two return values are
truncated to `int32`.  Shifts: `>> 3` is `/ 8`, `<< 1` is `* 2`, `>> 11` is
`/ 2048`, `>> 1` is `/ 2`, `>> 12` is `/ 4096`, `<< 4` is `* 16`,
`>> 14` is `/ 16384`, `>> 8` is `/ 256`. -/
def compensateTempInt (c : calibration68x) (raw : Int) : Int × Int :=
  -- var1 = (int64(raw) >> 3) - (int64(c.t1) << 1)
  let var1 := i64 (raw / 8 - i64 ((c.t1 : Int) * 2))
  -- var2 = (var1 * int64(c.t2)) >> 11
  let var2 := i64 (var1 * c.t2) / 2048
  -- var3 = ((var1 >> 1) * (var1 >> 1)) >> 12
  let var3 := i64 (var1 / 2 * (var1 / 2)) / 4096
  -- var3 = (var3 * (int64(c.t3) << 4)) >> 14
  let var3b := i64 (var3 * i64 (c.t3 * 16)) / 16384
  -- tFine := var2 + var3
  let tFine := i64 (var2 + var3b)
  -- return int32((tFine*5 + 128) >> 8), int32(tFine)
  (centiFromTFine tFine, i32 tFine)

/-! ## Humidity compensation (`compensateHumidityInt`) -/

/-- The first line of `compensateHumidityInt`:
`tempScaled = ((tFine * 5) + 128) >> 8`, computed in `int32` arithmetic
(wrapped multiplications and additions; the shift of an in-range `int32`
cannot leave the range). -/
def tempScaled32 (tFine : Int) : Int :=
  i32 (i32 (tFine * 5) + 128) / 256

/-- The value `calc_hum` of Go
`(c *calibration68x) compensateHumidityInt(raw, tFine int32) uint32` before
the final clamp.  All arithmetic is `int32` (wrapped); `/ 100` is Go's
truncating division `Int.tdiv`; `>> k` is division by `2^k`. -/
def calcHumRaw (c : calibration68x) (raw tFine : Int) : Int :=
  let tempScaled := tempScaled32 tFine
  -- var1 = (raw - (int32(c.h1) * 16)) - (((tempScaled * int32(c.h3)) / 100) >> 1)
  let var1 := i32 (i32 (raw - i32 ((c.h1 : Int) * 16)) -
    Int.tdiv (i32 (tempScaled * c.h3)) 100 / 2)
  -- var2 = (int32(c.h2) * (((tempScaled * int32(c.h4)) / 100) +
  --   (((tempScaled * ((tempScaled * int32(c.h5)) / 100)) >> 6) / 100) + (1 << 14))) >> 10
  let var2 := i32 (c.h2 *
    i32 (i32 (Int.tdiv (i32 (tempScaled * c.h4)) 100 +
              Int.tdiv (i32 (tempScaled * Int.tdiv (i32 (tempScaled * c.h5)) 100) / 64) 100) +
         16384)) / 1024
  -- var3 = var1 * var2
  let var3 := i32 (var1 * var2)
  -- var4 = int32(c.h6) << 7
  let var4a := i32 ((c.h6 : Int) * 128)
  -- var4 = (var4 + ((tempScaled * int32(c.h7)) / 100)) >> 4
  let var4 := i32 (var4a + Int.tdiv (i32 (tempScaled * c.h7)) 100) / 16
  -- var5 = ((var3 >> 14) * (var3 >> 14)) >> 10
  let var5 := i32 (var3 / 16384 * (var3 / 16384)) / 1024
  -- var6 = (var4 * var5) >> 1
  let var6 := i32 (var4 * var5) / 2
  -- calcHum = (((var3 + var6) >> 10) * 1000) >> 12
  i32 (i32 (var3 + var6) / 1024 * 1000) / 4096

/-- Go `compensateHumidityInt`: the raw `calc_hum` clamped to `[0, 100000]`
and returned as a `uint32`. -/
def compensateHumidityInt (c : calibration68x) (raw tFine : Int) : Int :=
  let calcHum := calcHumRaw c raw tFine
  -- if calcHum > 100000 { calcHum = 100000 } else if calcHum < 0 { calcHum = 0 }
  u32 (if 100000 < calcHum then 100000 else if calcHum < 0 then 0 else calcHum)

/-! ## Pressure compensation (`compensatePressureFloat`)

`float64` arithmetic is modelled by exact rational arithmetic.  The claims
proved below concern only the zero-denominator branch, whose behaviour is
a property of the control flow, not of floating-point rounding. -/

/-- The denominator `var1` of `compensatePressureFloat` at the point of the
`int32(var1) != 0` test: after the reassignments
`var1 = (((float64(c.p3) * var1 * var1) / 16384.0) + (float64(c.p2) * var1)) / 524288.0`
and `var1 = (1.0 + (var1 / 32768.0)) * float64(c.p1)`, where the initial
`var1` is `(float64(tFine) / 2.0) - 64000.0`. -/
def pressureDenom (c : calibration68x) (tFine : Int) : ℚ :=
  let v : ℚ := (tFine : ℚ) / 2 - 64000
  (1 + ((c.p3 : ℚ) * v * v / 16384 + (c.p2 : ℚ) * v) / 524288 / 32768) * (c.p1 : ℚ)

/-- Go `(c *calibration68x) compensatePressureFloat(raw, tFine int32) float64`,
with `float64` modelled as `ℚ`.  The guard `int32(var1) != 0` is the
truncation-to-integer test `truncQ`; when it fails the function returns the
sentinel `0` ("Avoid exception caused by division by zero"). -/
def compensatePressureFloat (c : calibration68x) (raw tFine : Int) : ℚ :=
  let v : ℚ := (tFine : ℚ) / 2 - 64000
  -- var2 = var1 * var1 * ((float64(c.p6)) / 131072.0)
  let var2a : ℚ := v * v * ((c.p6 : ℚ) / 131072)
  -- var2 = var2 + (var1 * float64(c.p5) * 2.0)
  let var2b : ℚ := var2a + v * (c.p5 : ℚ) * 2
  -- var2 = (var2 / 4.0) + (float64(c.p4) * 65536.0)
  let var2c : ℚ := var2b / 4 + (c.p4 : ℚ) * 65536
  -- var1 reassigned twice; final value is pressureDenom
  let var1 : ℚ := pressureDenom c tFine
  -- calc_pres = 1048576.0 - float64(raw)
  let calcPres : ℚ := 1048576 - (raw : ℚ)
  if truncQ var1 ≠ 0 then
    -- calc_pres = ((calc_pres - (var2 / 4096.0)) * 6250.0) / var1
    let cp : ℚ := (calcPres - var2c / 4096) * 6250 / var1
    -- var1 = (float64(c.p9) * calc_pres * calc_pres) / 2147483648.0
    let w1 : ℚ := (c.p9 : ℚ) * cp * cp / 2147483648
    -- var2 = calc_pres * (float64(c.p8) / 32768.0)
    let w2 : ℚ := cp * ((c.p8 : ℚ) / 32768)
    -- var3 = (calc_pres/256)^3 * (float64(c.p10) / 131072.0)
    let w3 : ℚ := cp / 256 * (cp / 256) * (cp / 256) * ((c.p10 : ℚ) / 131072)
    -- calc_pres = calc_pres + (var1+var2+var3+(float64(c.p7)*128.0))/16.0
    cp + (w1 + w2 + w3 + (c.p7 : ℚ) * 128) / 16
  else 0

/-! ## Device model, bus, and orchestrator (`sense68x`, `isIdle68x`) -/

/-- The channel options relevant to `sense68x`: Go's `d.opts.Pressure != Off`
and `d.opts.Humidity != Off` (the oversampling enum itself lives outside
this file's scope, only the `!= Off` tests are observed). -/
structure Opts where
  pressure : Bool
  humidity : Bool
  deriving DecidableEq

/-- The device state observed by the functions under verification: the chip
kind flag `isBME`, the options, the parsed calibration, and the bus,
modelled as a byte-valued register file plus an optional bus error (Go's
`readReg` either fills the buffer or returns an error verbatim). -/
structure Dev68x where
  isBME : Bool
  opts : Opts
  cal68x : calibration68x
  regs : Nat → Nat
  busErr : Option String

/-- Go `d.readReg(reg, b)` filling a buffer of `len` bytes starting at
register `reg`: fails with the bus error when there is one, otherwise
returns the `len` consecutive register bytes. -/
def readReg (d : Dev68x) (reg len : Nat) : Except String (List Nat) :=
  match d.busErr with
  | some e => .error e
  | none => .ok ((List.range len).map fun i => d.regs (reg + i) % 256)

/-- Go `(d *Dev) isIdle68x() (bool, error)`: reads one status byte at
`0x1D` and tests `v[0]&60 == 0`; a read error is returned as the error. -/
def isIdle68x (d : Dev68x) : Except String Bool :=
  match readReg d 29 1 with
  | .error e => .error e
  | .ok v => .ok (v.getD 0 0 &&& 60 == 0)

/-- The 20-bit extraction `int32(b0)<<12 | int32(b1)<<4 | int32(b2)>>4` used
by `sense68x` for both `pRaw` and `tRaw` (values are non-negative and small,
so `Nat` bit operations coincide with Go's `int32` ones). -/
def extract20 (b0 b1 b2 : Nat) : Nat :=
  b0 <<< 12 ||| b1 <<< 4 ||| b2 >>> 4

/-- Modelled from the spec: the unit constant `physic.MilliCelsius` of the
external `physic` package (nanokelvin base). -/
def milliCelsius : Int := 1000000

/-- Modelled from the spec: the unit constant `physic.ZeroCelsius` of the
external `physic` package (273.15 K in nanokelvins), the absolute-zero
offset added to the scaled temperature. -/
def zeroCelsius : Int := 273150000000

/-- Modelled from the spec: the unit constant `physic.MicroPascal` of the
external `physic` package (nanopascal base). -/
def microPascal : Int := 1000

/-- Modelled from the spec: the unit constant `physic.MicroRH` of the
external `physic` package. -/
def microRH : Int := 1

/-- The environment record filled by `sense68x` (the fields of
`physic.Env` it touches).  Unset fields stay `0`. -/
structure Env where
  temperature : Int
  pressure : Int
  humidity : Int
  deriving DecidableEq

/-- Lines 31–50 of the source: raw-value extraction and compensation, given
the 8-byte measurement buffer (`buf` in Go; when only 6 bytes were read the
last two bytes are the zero-initialised remainder of the `[8]byte` array).
`e.Temperature` is always assigned; `e.Pressure` and `e.Humidity` only when
the corresponding option is on. -/
def senseCompute (d : Dev68x) (buf : List Nat) : Env :=
  -- pRaw := int32(buf[0])<<12 | int32(buf[1])<<4 | int32(buf[2])>>4
  let pRaw := extract20 (buf.getD 0 0) (buf.getD 1 0) (buf.getD 2 0)
  -- tRaw := int32(buf[3])<<12 | int32(buf[4])<<4 | int32(buf[5])>>4
  let tRaw := extract20 (buf.getD 3 0) (buf.getD 4 0) (buf.getD 5 0)
  -- t, tFine := d.cal68x.compensateTempInt(tRaw)
  let tt := compensateTempInt d.cal68x (tRaw : Int)
  -- e.Temperature = physic.Temperature(t)*10*physic.MilliCelsius + physic.ZeroCelsius
  let env0 : Env := { temperature := tt.1 * 10 * milliCelsius + zeroCelsius,
                      pressure := 0, humidity := 0 }
  -- if d.opts.Pressure != Off { e.Pressure = physic.Pressure(p*256) * 15625 * physic.MicroPascal / 4 }
  let env1 := if d.opts.pressure then
      { env0 with pressure :=
          Int.tdiv (truncQ (compensatePressureFloat d.cal68x (pRaw : Int) tt.2 * 256)
            * 15625 * microPascal) 4 }
    else env0
  -- if d.opts.Humidity != Off { hRaw := int32(buf[6])<<8 | int32(buf[7]); ... }
  if d.opts.humidity then
    let hRaw := buf.getD 6 0 <<< 8 ||| buf.getD 7 0
    -- e.Humidity = physic.RelativeHumidity(h) * 10000 / 1024 * physic.MicroRH
    { env1 with humidity :=
        Int.tdiv (i32 (compensateHumidityInt d.cal68x (hRaw : Int) tt.2 * 10000)) 1024
          * microRH }
  else env1

/-- Go `(d *Dev) sense68x(e *physic.Env) error`: one `readReg` of 6 bytes
(`!d.isBME`) or 8 bytes (`d.isBME`) starting at `0x1F`, then pure
computation.  The second component records the register reads the cycle
issues, as `(address, length)` pairs, for the single `readReg` call of the
source. -/
def sense68x (d : Dev68x) : Except String Env × List (Nat × Nat) :=
  -- buf := [8]byte{}; b := buf[:]; if !d.isBME { b = buf[:6] }
  let len := if d.isBME then 8 else 6
  (match readReg d 31 len with
   | .error e => .error e
   | .ok bs => .ok (senseCompute d (bs ++ List.replicate (8 - len) 0)),
   [(31, len)])

/-! ## Facts about calibration parsing -/

/-- When both blocks are long enough (23 bytes of `tph`, 10 bytes of `h`),
parsing succeeds and every coefficient is the documented combination of the
bytes at the documented offsets. -/
theorem newCalibration68x_eq_some (tph h : List Nat)
    (hlt : 23 ≤ tph.length) (hlh : 10 ≤ h.length) :
    newCalibration68x tph h = some {
      t1 := h.getD 8 0 ||| h.getD 9 0 <<< 8,
      t2 := i16 ((tph.getD 0 0 ||| tph.getD 1 0 <<< 8 : Nat) : Int),
      t3 := i8 (tph.getD 2 0 : Int),
      p1 := tph.getD 4 0 ||| tph.getD 5 0 <<< 8,
      p2 := i16 ((tph.getD 6 0 ||| tph.getD 7 0 <<< 8 : Nat) : Int),
      p3 := i8 (tph.getD 8 0 : Int),
      p4 := i16 ((tph.getD 10 0 ||| tph.getD 11 0 <<< 8 : Nat) : Int),
      p5 := i16 ((tph.getD 12 0 ||| tph.getD 13 0 <<< 8 : Nat) : Int),
      p6 := i8 (tph.getD 15 0 : Int),
      p7 := i8 (tph.getD 14 0 : Int),
      p8 := i16 ((tph.getD 18 0 ||| tph.getD 19 0 <<< 8 : Nat) : Int),
      p9 := i16 ((tph.getD 20 0 ||| tph.getD 21 0 <<< 8 : Nat) : Int),
      p10 := tph.getD 22 0,
      h1 := h.getD 1 0 &&& 15 ||| h.getD 2 0 <<< 4,
      h2 := h.getD 1 0 >>> 4 ||| h.getD 0 0 <<< 4,
      h3 := i8 (h.getD 3 0 : Int),
      h4 := i8 (h.getD 4 0 : Int),
      h5 := i8 (h.getD 5 0 : Int),
      h6 := h.getD 6 0,
      h7 := i8 (h.getD 7 0 : Int) } := by
  rcases tph with _|⟨a0, _|⟨a1, _|⟨a2, _|⟨a3, _|⟨a4, _|⟨a5, _|⟨a6, _|⟨a7, _|⟨a8, _|⟨a9, _|⟨a10, _|⟨a11, _|⟨a12, _|⟨a13, _|⟨a14, _|⟨a15, _|⟨a16, _|⟨a17, _|⟨a18, _|⟨a19, _|⟨a20, _|⟨a21, _|⟨a22, tl⟩⟩⟩⟩⟩⟩⟩⟩⟩⟩⟩⟩⟩⟩⟩⟩⟩⟩⟩⟩⟩⟩⟩ <;>
    rcases h with _|⟨b0, _|⟨b1, _|⟨b2, _|⟨b3, _|⟨b4, _|⟨b5, _|⟨b6, _|⟨b7, _|⟨b8, _|⟨b9, hl⟩⟩⟩⟩⟩⟩⟩⟩⟩⟩ <;>
    first
      | rfl
      | (simp only [List.length_cons, List.length_nil] at hlt hlh; omega)

/-- When either block is short, parsing fails: some byte access is out of
range, and the `Option`-modelled indexing returns `none`. -/
theorem newCalibration68x_eq_none (tph h : List Nat)
    (hshort : tph.length < 23 ∨ h.length < 10) :
    newCalibration68x tph h = none := by
  rcases tph with _|⟨a0, _|⟨a1, _|⟨a2, _|⟨a3, _|⟨a4, _|⟨a5, _|⟨a6, _|⟨a7, _|⟨a8, _|⟨a9, _|⟨a10, _|⟨a11, _|⟨a12, _|⟨a13, _|⟨a14, _|⟨a15, _|⟨a16, _|⟨a17, _|⟨a18, _|⟨a19, _|⟨a20, _|⟨a21, _|⟨a22, tl⟩⟩⟩⟩⟩⟩⟩⟩⟩⟩⟩⟩⟩⟩⟩⟩⟩⟩⟩⟩⟩⟩⟩ <;>
    rcases h with _|⟨b0, _|⟨b1, _|⟨b2, _|⟨b3, _|⟨b4, _|⟨b5, _|⟨b6, _|⟨b7, _|⟨b8, _|⟨b9, hl⟩⟩⟩⟩⟩⟩⟩⟩⟩⟩ <;>
    first
      | rfl
      | (simp only [List.length_cons, List.length_nil] at hshort; omega)

/-- C1 (counterexample): the claim's size thresholds are wrong and there is
no pre-indexing validation.  With a 23-byte `tph` block and a 9-byte
humidity block — sizes the claim declares sufficient (it requires only
"at least 9" humidity bytes) — parsing nevertheless fails, because the `t1`
coefficient reads humidity-block local offset 9, an out-of-range access on a
9-byte block. -/
theorem newCalibration68x_nine_byte_humidity_fails :
    newCalibration68x (List.replicate 23 0) (List.replicate 9 0) = none := rfl

/-- C1 (amended): `newCalibration68x` performs no explicit size validation;
it fails — by the out-of-range byte access itself, modelled as `none` —
exactly when the `tph` block has fewer than 23 bytes or the humidity block
has fewer than 10 bytes (not 9: local offset 9 is read).  In particular a
22-byte `tph` block is rejected, and parsing of sufficiently long blocks
never makes an out-of-range access. -/
theorem newCalibration68x_succeeds_iff_sizes (tph h : List Nat) :
    (newCalibration68x tph h).isSome = true ↔
      23 ≤ tph.length ∧ 10 ≤ h.length := by
  constructor
  · intro hs
    by_contra hc
    rw [not_and_or] at hc
    rw [newCalibration68x_eq_none tph h (by omega)] at hs
    simp at hs
  · intro hln
    rw [newCalibration68x_eq_some tph h hln.1 hln.2]
    rfl

/-- C2: for every `tph` block of at least 23 bytes and humidity block of at
least 10 bytes, parsing returns exactly the documented coefficients:
little-endian two-byte combines at the listed `tph` offsets (`p7` from
`tph[14]`, `p6` from `tph[15]`), with `i16`/`i8` reinterpreting the signed
fields; `t1` from humidity-block local offsets 8 and 9;
`h1 = (h[1] & 0xF) | h[2] << 4`; and `h2 = (h[1] >> 4) | h[0] << 4`. -/
theorem newCalibration68x_documented_fields (tph h : List Nat)
    (hlt : 23 ≤ tph.length) (hlh : 10 ≤ h.length) :
    newCalibration68x tph h = some {
      t1 := h.getD 8 0 ||| h.getD 9 0 <<< 8,
      t2 := i16 ((tph.getD 0 0 ||| tph.getD 1 0 <<< 8 : Nat) : Int),
      t3 := i8 (tph.getD 2 0 : Int),
      p1 := tph.getD 4 0 ||| tph.getD 5 0 <<< 8,
      p2 := i16 ((tph.getD 6 0 ||| tph.getD 7 0 <<< 8 : Nat) : Int),
      p3 := i8 (tph.getD 8 0 : Int),
      p4 := i16 ((tph.getD 10 0 ||| tph.getD 11 0 <<< 8 : Nat) : Int),
      p5 := i16 ((tph.getD 12 0 ||| tph.getD 13 0 <<< 8 : Nat) : Int),
      p6 := i8 (tph.getD 15 0 : Int),
      p7 := i8 (tph.getD 14 0 : Int),
      p8 := i16 ((tph.getD 18 0 ||| tph.getD 19 0 <<< 8 : Nat) : Int),
      p9 := i16 ((tph.getD 20 0 ||| tph.getD 21 0 <<< 8 : Nat) : Int),
      p10 := tph.getD 22 0,
      h1 := h.getD 1 0 &&& 15 ||| h.getD 2 0 <<< 4,
      h2 := h.getD 1 0 >>> 4 ||| h.getD 0 0 <<< 4,
      h3 := i8 (h.getD 3 0 : Int),
      h4 := i8 (h.getD 4 0 : Int),
      h5 := i8 (h.getD 5 0 : Int),
      h6 := h.getD 6 0,
      h7 := i8 (h.getD 7 0 : Int) } :=
  newCalibration68x_eq_some tph h hlt hlh

/-- A concrete 23-byte `tph` calibration block for the parsing witness. -/
def tphW : List Nat :=
  [101, 102, 250, 104, 105, 106, 200, 108, 251, 110, 111, 112, 113, 114,
   252, 116, 117, 118, 119, 120, 121, 201, 222]

/-- A concrete 10-byte humidity calibration block for the parsing witness. -/
def humW : List Nat := [171, 188, 205, 252, 61, 62, 230, 253, 77, 210]

/-- C2 (witness): the parsing theorem applied to the concrete blocks `tphW`
and `humW`, every hypothesis discharged by computation. -/
theorem newCalibration68x_documented_fields_witness :
    newCalibration68x tphW humW = some {
      t1 := humW.getD 8 0 ||| humW.getD 9 0 <<< 8,
      t2 := i16 ((tphW.getD 0 0 ||| tphW.getD 1 0 <<< 8 : Nat) : Int),
      t3 := i8 (tphW.getD 2 0 : Int),
      p1 := tphW.getD 4 0 ||| tphW.getD 5 0 <<< 8,
      p2 := i16 ((tphW.getD 6 0 ||| tphW.getD 7 0 <<< 8 : Nat) : Int),
      p3 := i8 (tphW.getD 8 0 : Int),
      p4 := i16 ((tphW.getD 10 0 ||| tphW.getD 11 0 <<< 8 : Nat) : Int),
      p5 := i16 ((tphW.getD 12 0 ||| tphW.getD 13 0 <<< 8 : Nat) : Int),
      p6 := i8 (tphW.getD 15 0 : Int),
      p7 := i8 (tphW.getD 14 0 : Int),
      p8 := i16 ((tphW.getD 18 0 ||| tphW.getD 19 0 <<< 8 : Nat) : Int),
      p9 := i16 ((tphW.getD 20 0 ||| tphW.getD 21 0 <<< 8 : Nat) : Int),
      p10 := tphW.getD 22 0,
      h1 := humW.getD 1 0 &&& 15 ||| humW.getD 2 0 <<< 4,
      h2 := humW.getD 1 0 >>> 4 ||| humW.getD 0 0 <<< 4,
      h3 := i8 (humW.getD 3 0 : Int),
      h4 := i8 (humW.getD 4 0 : Int),
      h5 := i8 (humW.getD 5 0 : Int),
      h6 := humW.getD 6 0,
      h7 := i8 (humW.getD 7 0 : Int) } :=
  newCalibration68x_documented_fields tphW humW (by decide) (by decide)

/-! ## Facts about temperature compensation -/

/-- C10: whenever `tFine*5 + 128` fits in a signed 32-bit integer, the
`tempScaled` computed by humidity compensation in 32-bit arithmetic equals
the centi-Celsius value the temperature step computes in 64-bit arithmetic
and truncates to 32 bits — the two paths agree on the scaled temperature. -/
theorem tempScaled32_eq_centiFromTFine (t : Int)
    (h1 : -2147483648 ≤ t * 5 + 128) (h2 : t * 5 + 128 < 2147483648) :
    tempScaled32 t = centiFromTFine t := by
  unfold tempScaled32 centiFromTFine
  rw [i32_add_left, i64_id (t * 5) (by omega) (by omega),
    i64_id (t * 5 + 128) (by omega) (by omega), i32_id (t * 5 + 128) h1 h2,
    i32_id ((t * 5 + 128) / 256) (by omega) (by omega)]

/-- C10 (witness): the agreement theorem applied at `tFine = 1000000`. -/
theorem tempScaled32_eq_centiFromTFine_witness :
    tempScaled32 1000000 = centiFromTFine 1000000 :=
  tempScaled32_eq_centiFromTFine 1000000 (by decide) (by decide)

/-- C3: for every 20-bit unsigned raw temperature code and every coefficient
set within its field-type ranges, `compensateTempInt` computes exactly the
documented formula — `v1 = (tRaw >> 3) - (t1 << 1)`; `v2 = (v1*t2) >> 11`;
`v3 = ((((v1>>1)*(v1>>1)) >> 12) * (t3 << 4)) >> 14`; `tFine = v2 + v3`;
first output `(tFine*5 + 128) >> 8` (centi-Celsius), second output `tFine` —
with none of the 64-bit intermediates overflowing and both outputs within
`int32` range, so the wrapping conversions are the identity. -/
theorem compensateTempInt_formula (c : calibration68x) (raw : Int)
    (hr0 : 0 ≤ raw) (hr1 : raw < 1048576) (hw : c.Wf) :
    compensateTempInt c raw =
      ((((raw / 8 - (c.t1 : Int) * 2) * c.t2 / 2048 +
          (raw / 8 - (c.t1 : Int) * 2) / 2 * ((raw / 8 - (c.t1 : Int) * 2) / 2) / 4096
            * (c.t3 * 16) / 16384) * 5 + 128) / 256,
       (raw / 8 - (c.t1 : Int) * 2) * c.t2 / 2048 +
          (raw / 8 - (c.t1 : Int) * 2) / 2 * ((raw / 8 - (c.t1 : Int) * 2) / 2) / 4096
            * (c.t3 * 16) / 16384) := by
  obtain ⟨ht1, ht2a, ht2b, ht3a, ht3b, -⟩ := hw
  have e1 : i64 ((c.t1 : Int) * 2) = (c.t1 : Int) * 2 :=
    i64_id _ (by omega) (by omega)
  have e2 : i64 (raw / 8 - (c.t1 : Int) * 2) = raw / 8 - (c.t1 : Int) * 2 :=
    i64_id _ (by omega) (by omega)
  have hm1 := mul_bounds
    (abs_le.mpr ⟨by omega, by omega⟩ : |raw / 8 - (c.t1 : Int) * 2| ≤ 131071)
    (abs_le.mpr ⟨by omega, by omega⟩ : |c.t2| ≤ 32768)
  have e3 : i64 ((raw / 8 - (c.t1 : Int) * 2) * c.t2) =
      (raw / 8 - (c.t1 : Int) * 2) * c.t2 :=
    i64_id _ (by omega) (by omega)
  have hmQ := mul_bounds
    (abs_le.mpr ⟨by omega, by omega⟩ : |(raw / 8 - (c.t1 : Int) * 2) / 2| ≤ 65535)
    (abs_le.mpr ⟨by omega, by omega⟩ : |(raw / 8 - (c.t1 : Int) * 2) / 2| ≤ 65535)
  have e4 : i64 ((raw / 8 - (c.t1 : Int) * 2) / 2 * ((raw / 8 - (c.t1 : Int) * 2) / 2)) =
      (raw / 8 - (c.t1 : Int) * 2) / 2 * ((raw / 8 - (c.t1 : Int) * 2) / 2) :=
    i64_id _ (by omega) (by omega)
  have e5 : i64 (c.t3 * 16) = c.t3 * 16 := i64_id _ (by omega) (by omega)
  have hmR := mul_bounds
    (abs_le.mpr ⟨by omega, by omega⟩ :
      |(raw / 8 - (c.t1 : Int) * 2) / 2 * ((raw / 8 - (c.t1 : Int) * 2) / 2) / 4096| ≤ 1048545)
    (abs_le.mpr ⟨by omega, by omega⟩ : |c.t3 * 16| ≤ 2048)
  have e6 : i64 ((raw / 8 - (c.t1 : Int) * 2) / 2 * ((raw / 8 - (c.t1 : Int) * 2) / 2) / 4096
        * (c.t3 * 16)) =
      (raw / 8 - (c.t1 : Int) * 2) / 2 * ((raw / 8 - (c.t1 : Int) * 2) / 2) / 4096
        * (c.t3 * 16) :=
    i64_id _ (by omega) (by omega)
  have e7 : i64 ((raw / 8 - (c.t1 : Int) * 2) * c.t2 / 2048 +
        (raw / 8 - (c.t1 : Int) * 2) / 2 * ((raw / 8 - (c.t1 : Int) * 2) / 2) / 4096
          * (c.t3 * 16) / 16384) =
      (raw / 8 - (c.t1 : Int) * 2) * c.t2 / 2048 +
        (raw / 8 - (c.t1 : Int) * 2) / 2 * ((raw / 8 - (c.t1 : Int) * 2) / 2) / 4096
          * (c.t3 * 16) / 16384 :=
    i64_id _ (by omega) (by omega)
  have e8 : i32 ((raw / 8 - (c.t1 : Int) * 2) * c.t2 / 2048 +
        (raw / 8 - (c.t1 : Int) * 2) / 2 * ((raw / 8 - (c.t1 : Int) * 2) / 2) / 4096
          * (c.t3 * 16) / 16384) =
      (raw / 8 - (c.t1 : Int) * 2) * c.t2 / 2048 +
        (raw / 8 - (c.t1 : Int) * 2) / 2 * ((raw / 8 - (c.t1 : Int) * 2) / 2) / 4096
          * (c.t3 * 16) / 16384 :=
    i32_id _ (by omega) (by omega)
  have e9 : i64 (((raw / 8 - (c.t1 : Int) * 2) * c.t2 / 2048 +
        (raw / 8 - (c.t1 : Int) * 2) / 2 * ((raw / 8 - (c.t1 : Int) * 2) / 2) / 4096
          * (c.t3 * 16) / 16384) * 5) =
      ((raw / 8 - (c.t1 : Int) * 2) * c.t2 / 2048 +
        (raw / 8 - (c.t1 : Int) * 2) / 2 * ((raw / 8 - (c.t1 : Int) * 2) / 2) / 4096
          * (c.t3 * 16) / 16384) * 5 :=
    i64_id _ (by omega) (by omega)
  have e10 : i64 (((raw / 8 - (c.t1 : Int) * 2) * c.t2 / 2048 +
        (raw / 8 - (c.t1 : Int) * 2) / 2 * ((raw / 8 - (c.t1 : Int) * 2) / 2) / 4096
          * (c.t3 * 16) / 16384) * 5 + 128) =
      ((raw / 8 - (c.t1 : Int) * 2) * c.t2 / 2048 +
        (raw / 8 - (c.t1 : Int) * 2) / 2 * ((raw / 8 - (c.t1 : Int) * 2) / 2) / 4096
          * (c.t3 * 16) / 16384) * 5 + 128 :=
    i64_id _ (by omega) (by omega)
  have e11 : i32 ((((raw / 8 - (c.t1 : Int) * 2) * c.t2 / 2048 +
        (raw / 8 - (c.t1 : Int) * 2) / 2 * ((raw / 8 - (c.t1 : Int) * 2) / 2) / 4096
          * (c.t3 * 16) / 16384) * 5 + 128) / 256) =
      (((raw / 8 - (c.t1 : Int) * 2) * c.t2 / 2048 +
        (raw / 8 - (c.t1 : Int) * 2) / 2 * ((raw / 8 - (c.t1 : Int) * 2) / 2) / 4096
          * (c.t3 * 16) / 16384) * 5 + 128) / 256 :=
    i32_id _ (by omega) (by omega)
  simp only [compensateTempInt, centiFromTFine, e1, e2, e3, e4, e5, e6, e7,
    e8, e9, e10, e11]

/-- A concrete well-formed coefficient set for the temperature witness. -/
def calW : calibration68x :=
  { t1 := 26435, t2 := 26730, t3 := 50, p1 := 36477, p2 := -10685, p3 := 48,
    p4 := 2855, p5 := 140, p8 := -7, p9 := 15500, p6 := 23, p7 := 88,
    p10 := 30, h1 := 600, h2 := 750, h3 := 0, h4 := 45, h5 := 53, h7 := -100,
    h6 := 120 }

/-- C3 (witness): the formula theorem applied at the concrete raw code
`519888` with the concrete coefficients `calW`, hypotheses discharged by
computation. -/
theorem compensateTempInt_formula_witness :
    compensateTempInt calW 519888 =
      ((((519888 / 8 - (calW.t1 : Int) * 2) * calW.t2 / 2048 +
          (519888 / 8 - (calW.t1 : Int) * 2) / 2 * ((519888 / 8 - (calW.t1 : Int) * 2) / 2) / 4096
            * (calW.t3 * 16) / 16384) * 5 + 128) / 256,
       (519888 / 8 - (calW.t1 : Int) * 2) * calW.t2 / 2048 +
          (519888 / 8 - (calW.t1 : Int) * 2) / 2 * ((519888 / 8 - (calW.t1 : Int) * 2) / 2) / 4096
            * (calW.t3 * 16) / 16384) :=
  compensateTempInt_formula calW 519888 (by decide) (by decide) (by decide)

/-! ## Facts about humidity and pressure compensation -/

/-- C5: for every raw humidity code, every `tFine` and every coefficient
set, the result of `compensateHumidityInt` lies in `[0, 100000]`; whenever
the raw computed value exceeds `100000` the result is exactly `100000`, and
whenever it is negative the result is exactly `0` — clamping, not an
error. -/
theorem compensateHumidityInt_clamped (c : calibration68x) (raw tFine : Int) :
    (0 ≤ compensateHumidityInt c raw tFine ∧
      compensateHumidityInt c raw tFine ≤ 100000) ∧
    (100000 < calcHumRaw c raw tFine →
      compensateHumidityInt c raw tFine = 100000) ∧
    (calcHumRaw c raw tFine < 0 → compensateHumidityInt c raw tFine = 0) := by
  simp only [compensateHumidityInt, u32]
  split_ifs <;> omega

/-- A coefficient set driving the humidity formula negative: all
coefficients are zero except `h2 = 1`. -/
def calHumW : calibration68x :=
  { t1 := 0, t2 := 0, t3 := 0, p1 := 0, p2 := 0, p4 := 0, p5 := 0, p8 := 0,
    p9 := 0, p3 := 0, p6 := 0, p7 := 0, p10 := 0, h1 := 0, h2 := 1, h3 := 0,
    h4 := 0, h5 := 0, h7 := 0, h6 := 0 }

/-- C5 (witness): with coefficients `calHumW`, raw code `-1` and
`tFine = 0` the raw computed value is negative and the clamp theorem yields
exactly `0`. -/
theorem compensateHumidityInt_clamped_witness :
    calcHumRaw calHumW (-1) 0 < 0 ∧ compensateHumidityInt calHumW (-1) 0 = 0 :=
  ⟨by decide, (compensateHumidityInt_clamped calHumW (-1) 0).2.2 (by decide)⟩

/-- C4: for every raw pressure code, `tFine` and coefficient set, whenever
the intermediate denominator `var1` truncates to integer zero,
`compensatePressureFloat` returns exactly `0` as a defined result — the
guarded branch, not an error path (the function is total). -/
theorem compensatePressureFloat_zero_denom (c : calibration68x)
    (raw tFine : Int) (h : truncQ (pressureDenom c tFine) = 0) :
    compensatePressureFloat c raw tFine = 0 := by
  simp [compensatePressureFloat, h]

/-- The all-zero coefficient set (for which the pressure denominator is the
rational `0`, whose truncation is `0`). -/
def calZeroW : calibration68x :=
  { t1 := 0, t2 := 0, t3 := 0, p1 := 0, p2 := 0, p4 := 0, p5 := 0, p8 := 0,
    p9 := 0, p3 := 0, p6 := 0, p7 := 0, p10 := 0, h1 := 0, h2 := 0, h3 := 0,
    h4 := 0, h5 := 0, h7 := 0, h6 := 0 }

/-- C4 (witness): with the all-zero coefficients, raw code `500000` and
`tFine = 25000`, the denominator truncates to zero and the guarded result
is exactly `0`. -/
theorem compensatePressureFloat_zero_denom_witness :
    truncQ (pressureDenom calZeroW 25000) = 0 ∧
      compensatePressureFloat calZeroW 500000 25000 = 0 := by
  have hden : pressureDenom calZeroW 25000 = 0 := by
    norm_num [pressureDenom, calZeroW]
  have htr : truncQ (pressureDenom calZeroW 25000) = 0 := by
    rw [hden]; rfl
  exact ⟨htr, compensatePressureFloat_zero_denom calZeroW 500000 25000 htr⟩

/-! ## Facts about the idle check and the measurement cycle -/

set_option maxRecDepth 8000

/-- A byte's `& 60` test is zero exactly when bits 2–5 are all clear. -/
theorem mask60_iff : ∀ v, v < 256 →
    ((v &&& 60 = 0) ↔ (Nat.testBit v 2 = false ∧ Nat.testBit v 3 = false ∧
      Nat.testBit v 4 = false ∧ Nat.testBit v 5 = false)) := by
  decide

/-- C6: when the bus works, `isIdle68x` answers `true` exactly when bits
2–5 (mask `0b00111100 = 60`) of the status byte at `0x1D` are all clear —
bits outside the mask are ignored — and when the single-byte read fails the
error is propagated verbatim instead of a boolean. -/
theorem isIdle68x_spec (d : Dev68x) :
    (d.busErr = none →
      ((isIdle68x d = .ok true) ↔
        (Nat.testBit (d.regs 29 % 256) 2 = false ∧
         Nat.testBit (d.regs 29 % 256) 3 = false ∧
         Nat.testBit (d.regs 29 % 256) 4 = false ∧
         Nat.testBit (d.regs 29 % 256) 5 = false))) ∧
    (∀ e, d.busErr = some e → isIdle68x d = .error e) := by
  constructor
  · intro hn
    have hv : d.regs 29 % 256 < 256 := Nat.mod_lt _ (by norm_num)
    have hred : isIdle68x d = .ok ((d.regs 29 % 256 &&& 60) == 0) := by
      simp only [isIdle68x, readReg, hn]
      rfl
    rw [hred]
    constructor
    · intro hx
      have hb : ((d.regs 29 % 256 &&& 60) == 0) = true := by
        injection hx
      exact (mask60_iff _ hv).mp (by rwa [beq_iff_eq] at hb)
    · intro hb
      have hz : d.regs 29 % 256 &&& 60 = 0 := (mask60_iff _ hv).mpr hb
      rw [hz]
      rfl
  · intro e he
    simp [isIdle68x, readReg, he]

/-- A concrete working device whose every register reads `1` (a set bit
outside the idle mask). -/
def devW : Dev68x :=
  { isBME := true, opts := { pressure := true, humidity := true },
    cal68x := calW, regs := fun _ => 1, busErr := none }

/-- C6 (witness): on `devW` the status byte is `0b00000001` — a bit outside
the mask is set — and the idle theorem answers `true`. -/
theorem isIdle68x_spec_witness : isIdle68x devW = .ok true :=
  ((isIdle68x_spec devW).1 rfl).mpr (by decide)

/-- A BME-chip device with the humidity channel not requested: only
temperature and pressure are measured. -/
def devBMEHumOffW : Dev68x :=
  { isBME := true, opts := { pressure := true, humidity := false },
    cal68x := calW, regs := fun _ => 0, busErr := none }

/-- C7 (counterexample): the width of the single measurement read follows
the chip kind, not the requested channels.  On a BME-chip device with
humidity off — so only temperature and pressure are measured — the cycle
issues an 8-byte read at `0x1F`, not the 6-byte read the claim requires. -/
theorem sense68x_read_width_counterexample :
    devBMEHumOffW.opts.humidity = false ∧
    devBMEHumOffW.opts.pressure = true ∧
    (sense68x devBMEHumOffW).2 = [(31, 8)] ∧
    (sense68x devBMEHumOffW).2 ≠ [(31, 6)] := by
  refine ⟨rfl, rfl, rfl, ?_⟩
  decide

/-- C7 (amended): on every measurement cycle the orchestrator issues
exactly one register read, at address `0x1F`, of exactly 8 bytes when the
device is a humidity-capable BME chip and exactly 6 bytes otherwise — the
width depends on the chip kind (`isBME`), not on which optional channels
are requested; no second read of the measurement block occurs. -/
theorem sense68x_single_read (d : Dev68x) :
    (sense68x d).2 = [(31, if d.isBME then 8 else 6)] ∧
    ((sense68x d).2).length = 1 :=
  ⟨rfl, rfl⟩

/-- C8: on a successful read, `sense68x` computes over exactly the read
buffer (padded to the 8-byte array), and the extraction used on it is the
documented one: a 20-bit value `b0<<12 | b1<<4 | b2>>4` for `pRaw`
(bytes 0–2) and `tRaw` (bytes 3–5) — always below `2^20` and insensitive to
the low nibble of the third byte — and a 16-bit value `b6<<8 | b7` for
`hRaw`. -/
theorem sense68x_raw_extraction (d : Dev68x) (hbus : d.busErr = none) :
    (sense68x d).1 =
      .ok (senseCompute d (((List.range (if d.isBME then 8 else 6)).map
            fun i => d.regs (31 + i) % 256) ++
          List.replicate (8 - (if d.isBME then 8 else 6)) 0)) ∧
    (∀ b0 b1 b2 : Nat, b0 < 256 → b1 < 256 → b2 < 256 →
      extract20 b0 b1 b2 < 1048576 ∧
      extract20 b0 b1 b2 = extract20 b0 b1 (b2 / 16 * 16)) ∧
    (∀ b6 b7 : Nat, b6 < 256 → b7 < 256 → b6 <<< 8 ||| b7 < 65536) := by
  refine ⟨?_, ?_, ?_⟩
  · simp only [sense68x, readReg, hbus]
  · intro b0 b1 b2 hb0 hb1 hb2
    constructor
    · have e0 : b0 <<< 12 < 2 ^ 20 := by rw [Nat.shiftLeft_eq]; omega
      have e1 : b1 <<< 4 < 2 ^ 20 := by rw [Nat.shiftLeft_eq]; omega
      have e2 : b2 >>> 4 < 2 ^ 20 := by rw [Nat.shiftRight_eq_div_pow]; omega
      have := Nat.or_lt_two_pow (Nat.or_lt_two_pow e0 e1) e2
      simpa [extract20] using this
    · simp only [extract20]
      congr 1
      rw [Nat.shiftRight_eq_div_pow, Nat.shiftRight_eq_div_pow]
      omega
  · intro b6 b7 hb6 hb7
    have e0 : b6 <<< 8 < 2 ^ 16 := by rw [Nat.shiftLeft_eq]; omega
    have e1 : b7 < 2 ^ 16 := by omega
    have := Nat.or_lt_two_pow e0 e1
    simpa using this

/-- C8 (witness): the extraction theorem applied to the concrete device
`devW`, with the generic extraction facts instantiated at the bytes
`18`, `52`, `87`. -/
theorem sense68x_raw_extraction_witness :
    extract20 18 52 87 < 1048576 ∧
      extract20 18 52 87 = extract20 18 52 (87 / 16 * 16) :=
  (sense68x_raw_extraction devW rfl).2.1 18 52 87 (by decide) (by decide)
    (by decide)

/-- The temperature field `senseCompute` assigns is determined by bytes 3–5
of the buffer and the calibration alone — the pressure and humidity
branches do not touch it. -/
theorem senseCompute_temperature (d : Dev68x) (buf : List Nat) :
    (senseCompute d buf).temperature =
      (compensateTempInt d.cal68x
          (extract20 (buf.getD 3 0) (buf.getD 4 0) (buf.getD 5 0) : Nat)).1
        * 10 * milliCelsius + zeroCelsius := by
  simp only [senseCompute]
  cases hp : d.opts.pressure <;> cases hh : d.opts.humidity <;> simp [hp, hh]

/-- C9: the temperature output of a measurement cycle is the same whatever
optional channels are requested — over the same registers and calibration,
any two option settings give identical temperature — and on a successful
read it equals the scaled `compensateTempInt` result on the 20-bit code
from bytes 3–5: centi-Celsius times 10 milli-units plus the absolute-zero
offset; a failed read propagates the same error in all cases. -/
theorem sense68x_temperature_independent (d : Dev68x) (o1 o2 : Opts) :
    (sense68x { d with opts := o1 }).1.map Env.temperature =
      (sense68x { d with opts := o2 }).1.map Env.temperature ∧
    (sense68x d).1.map Env.temperature =
      (readReg d 31 (if d.isBME then 8 else 6)).map (fun _ =>
        (compensateTempInt d.cal68x
            (extract20 (d.regs 34 % 256) (d.regs 35 % 256) (d.regs 36 % 256) : Nat)).1
          * 10 * milliCelsius + zeroCelsius) := by
  constructor
  · cases hbus : d.busErr
    · simp only [sense68x, readReg, hbus, Except.map, senseCompute_temperature]
    · simp only [sense68x, readReg, hbus, Except.map, senseCompute_temperature]
  · cases hbus : d.busErr
    · cases hb : d.isBME <;>
        simp only [sense68x, readReg, hbus, hb, Except.map,
          senseCompute_temperature] <;>
        rfl
    · simp only [sense68x, readReg, hbus, Except.map]

end Bmxx80
